import Mathlib

/-!
Shallow embedding of the state-change event core of the agent
(package statechange: ContainerStateChange, TaskStateChange,
AttachmentStateChange and their String methods) together with the
windows CNI setup retry configuration constants (package ecscni).

External collaborator types (container/task status enums, the ECS SDK
state-change records, the ENI attachment object, time.Time and network
bindings) are opaque to this core: the code only ever forwards their
string forms, so each is modelled as a carrier of the string its Go
String method (or fmt rendering) produces.
-/

namespace Statechange

/-- Go fmt rendering of a Bool via the %v verb. -/
def goBool (b : Bool) : String := if b then "true" else "false"

/-- Opaque model of time.Time; rep is the text the value prints via %s. -/
structure GoTime where
  rep : String
deriving DecidableEq

/-- Opaque model of the external container-status enum
(apicontainerstatus.ContainerStatus); rep is its String() form. -/
structure ContainerStatus where
  rep : String
deriving DecidableEq

/-- String method of the container status (external domain). -/
def ContainerStatus.string (s : ContainerStatus) : String := s.rep

/-- Opaque model of the external task-status enum
(apitaskstatus.TaskStatus); rep is its String() form. -/
structure TaskStatus where
  rep : String
deriving DecidableEq

/-- String method of the task status (external domain). -/
def TaskStatus.string (s : TaskStatus) : String := s.rep

/-- Opaque model of an ecs.NetworkBinding; rep is its String() form,
which fmt uses for the %v verb. -/
structure NetworkBinding where
  rep : String
deriving DecidableEq

/-- Go fmt rendering of a slice of NetworkBinding values via %v:
bracketed, space separated element renderings. -/
def networkBindingsRepr (bs : List NetworkBinding) : String :=
  "[" ++ String.intercalate " " (bs.map (fun b => b.rep)) ++ "]"

/-- ContainerMetadataGetter: the narrow read-only capability interface
over a live container object. A value of this structure records what
each accessor returns at the moment of the call. -/
structure ContainerMetadataGetter where
  getContainerIsNil : Bool
  getContainerSentStatusString : String
  getContainerRuntimeID : String
  getContainerIsEssential : Bool
deriving DecidableEq

/-- TaskMetadataGetter: the narrow read-only capability interface over
a live task object. -/
structure TaskMetadataGetter where
  getTaskIsNil : Bool
  getTaskSentStatusString : String
  getTaskPullStartedAt : GoTime
  getTaskPullStoppedAt : GoTime
  getTaskExecutionStoppedAt : GoTime
deriving DecidableEq

/-- ContainerStateChange: a state change destined for the
SubmitContainerStateChange API. A nil interface value for the metadata
getter is modelled as none. -/
structure ContainerStateChange where
  taskArn : String
  runtimeID : String
  containerName : String
  status : ContainerStatus
  imageDigest : String
  reason : String
  exitCode : Option Int
  networkBindings : List NetworkBinding
  metadataGetter : Option ContainerMetadataGetter
deriving DecidableEq

/-- Opaque model of an ecs.ContainerStateChange SDK record; rep is its
String() form. -/
structure EcsContainerStateChange where
  rep : String
deriving DecidableEq

/-- Opaque model of an ecs.ManagedAgentStateChange SDK record; rep is
its String() form. -/
structure EcsManagedAgentStateChange where
  rep : String
deriving DecidableEq

/-- Opaque model of an ni.ENIAttachment: the code reads its
AttachmentARN field, its Status String() form and its own String()
rendering, so those three strings are the model. -/
structure ENIAttachment where
  attachmentARN : String
  statusRep : String
  rep : String
deriving DecidableEq

/-- TaskStateChange: a state change destined for the
SubmitTaskStateChange API. Nil pointers are modelled as none. -/
structure TaskStateChange where
  attachment : Option ENIAttachment
  taskARN : String
  status : TaskStatus
  reason : String
  containers : List EcsContainerStateChange
  managedAgents : List EcsManagedAgentStateChange
  pullStartedAt : Option GoTime
  pullStoppedAt : Option GoTime
  executionStoppedAt : Option GoTime
  metadataGetter : Option TaskMetadataGetter
deriving DecidableEq

/-- AttachmentStateChange: a state change destined for the
SubmitAttachmentStateChanges API. -/
structure AttachmentStateChange where
  attachment : Option ENIAttachment
deriving DecidableEq

/-- String method of ContainerStateChange, translated clause by clause
from the Go source: name/status head, then conditional exit code,
reason, network bindings and metadata clauses, appended in order. -/
def ContainerStateChange.string (c : ContainerStateChange) : String :=
  let res := "containerName=" ++ c.containerName ++ " containerStatus=" ++ c.status.string
  let res := match c.exitCode with
    | some ec => res ++ (" containerExitCode=" ++ toString ec)
    | none => res
  let res := if c.reason ≠ "" then res ++ (" containerReason=" ++ c.reason) else res
  let res := if c.networkBindings.length ≠ 0 then
      res ++ (" containerNetworkBindings=" ++ networkBindingsRepr c.networkBindings)
    else res
  let res := match c.metadataGetter with
    | some g =>
      if g.getContainerIsNil then res
      else res ++ (" containerKnownSentStatus=" ++ g.getContainerSentStatusString
        ++ " containerRuntimeID=" ++ g.getContainerRuntimeID
        ++ " containerIsEssential=" ++ goBool g.getContainerIsEssential)
    | none => res
  res

/-- String method of TaskStateChange, translated from the Go source:
ARN/status head, then conditional metadata clause, conditional
attachment clause, then one clause per container sub-event and one per
managed-agent sub-event, accumulated left to right as the loops do. -/
def TaskStateChange.string (ch : TaskStateChange) : String :=
  let res := ch.taskARN ++ " -> " ++ ch.status.string
  let res := match ch.metadataGetter with
    | some g =>
      if g.getTaskIsNil then res
      else res ++ (", Known Sent: " ++ g.getTaskSentStatusString
        ++ ", PullStartedAt: " ++ g.getTaskPullStartedAt.rep
        ++ ", PullStoppedAt: " ++ g.getTaskPullStoppedAt.rep
        ++ ", ExecutionStoppedAt: " ++ g.getTaskExecutionStoppedAt.rep)
    | none => res
  let res := match ch.attachment with
    | some a => res ++ (", " ++ a.rep)
    | none => res
  let res := ch.containers.foldl (fun r cc => r ++ (", container change: " ++ cc.rep)) res
  let res := ch.managedAgents.foldl (fun r mc => r ++ (", managed agent: " ++ mc.rep)) res
  res

/-- String method of AttachmentStateChange, translated from the Go
source: empty string for a nil attachment, otherwise ARN, status and
the attachment detail rendering. -/
def AttachmentStateChange.string (ch : AttachmentStateChange) : String :=
  match ch.attachment with
  | some a => a.attachmentARN ++ " -> " ++ a.statusRep ++ ", " ++ a.rep
  | none => ""

/-- Head clause of the container rendering (always present). -/
def containerNameStatusClause (c : ContainerStateChange) : String :=
  "containerName=" ++ c.containerName ++ " containerStatus=" ++ c.status.string

/-- Exit-code clause of the container rendering (empty when absent). -/
def containerExitCodeClause (c : ContainerStateChange) : String :=
  match c.exitCode with
  | some ec => " containerExitCode=" ++ toString ec
  | none => ""

/-- Reason clause of the container rendering (empty when absent). -/
def containerReasonClause (c : ContainerStateChange) : String :=
  if c.reason ≠ "" then " containerReason=" ++ c.reason else ""

/-- Network-bindings clause of the container rendering (empty when the
sequence is empty). -/
def containerBindingsClause (c : ContainerStateChange) : String :=
  if c.networkBindings.length ≠ 0 then
    " containerNetworkBindings=" ++ networkBindingsRepr c.networkBindings
  else ""

/-- Metadata clause of the container rendering, rendered from a getter
whose nil-check came back false. -/
def containerMetaClauseOf (g : ContainerMetadataGetter) : String :=
  " containerKnownSentStatus=" ++ g.getContainerSentStatusString
    ++ " containerRuntimeID=" ++ g.getContainerRuntimeID
    ++ " containerIsEssential=" ++ goBool g.getContainerIsEssential

/-- Metadata clause of the container rendering (empty when the getter
is absent or reports a void container). -/
def containerMetaClause (c : ContainerStateChange) : String :=
  match c.metadataGetter with
  | some g => if g.getContainerIsNil then "" else containerMetaClauseOf g
  | none => ""

/-- Head clause of the task rendering (always present). -/
def taskHeadClause (ch : TaskStateChange) : String :=
  ch.taskARN ++ " -> " ++ ch.status.string

/-- Metadata clause of the task rendering, rendered from a getter
whose nil-check came back false. -/
def taskMetaClauseOf (g : TaskMetadataGetter) : String :=
  ", Known Sent: " ++ g.getTaskSentStatusString
    ++ ", PullStartedAt: " ++ g.getTaskPullStartedAt.rep
    ++ ", PullStoppedAt: " ++ g.getTaskPullStoppedAt.rep
    ++ ", ExecutionStoppedAt: " ++ g.getTaskExecutionStoppedAt.rep

/-- Metadata clause of the task rendering (empty when the getter is
absent or reports a void task). -/
def taskMetaClause (ch : TaskStateChange) : String :=
  match ch.metadataGetter with
  | some g => if g.getTaskIsNil then "" else taskMetaClauseOf g
  | none => ""

/-- Attachment clause of the task rendering (empty when the attachment
is nil). -/
def taskAttachmentClause (ch : TaskStateChange) : String :=
  match ch.attachment with
  | some a => ", " ++ a.rep
  | none => ""

/-- Concatenation of the container sub-event clauses, one per
sub-event, in sequence order. -/
def containerChangeClauses : List EcsContainerStateChange → String
  | [] => ""
  | cc :: rest => (", container change: " ++ cc.rep) ++ containerChangeClauses rest

/-- Concatenation of the managed-agent sub-event clauses, one per
sub-event, in sequence order. -/
def managedAgentClauses : List EcsManagedAgentStateChange → String
  | [] => ""
  | mc :: rest => (", managed agent: " ++ mc.rep) ++ managedAgentClauses rest

/-- Modelled from the spec: the string form RUNNING of the external
container-status domain, used in the golden scenarios. -/
def containerStatusRunning : ContainerStatus := ⟨"RUNNING"⟩

/-- Modelled from the spec: the string form STOPPED of the external
container-status domain, used in the golden scenarios. -/
def containerStatusStopped : ContainerStatus := ⟨"STOPPED"⟩

/-- Golden scenario value: container named web, status RUNNING, no exit
code, no reason, no bindings, no getter. -/
def sampleWebRunning : ContainerStateChange :=
  { taskArn := "", runtimeID := "", containerName := "web",
    status := containerStatusRunning, imageDigest := "", reason := "",
    exitCode := none, networkBindings := [], metadataGetter := none }

/-- Golden scenario value: container named web, status STOPPED, exit
code 1, reason OOMKilled. -/
def sampleWebStopped : ContainerStateChange :=
  { taskArn := "", runtimeID := "", containerName := "web",
    status := containerStatusStopped, imageDigest := "", reason := "OOMKilled",
    exitCode := some 1, networkBindings := [], metadataGetter := none }

/-- Sample container metadata getter whose nil-check reports false. -/
def sampleGetter : ContainerMetadataGetter := ⟨false, "RUNNING", "rid", true⟩

/-- Sample task metadata getter whose nil-check reports false. -/
def sampleTaskGetter : TaskMetadataGetter := ⟨false, "RUNNING", ⟨"t1"⟩, ⟨"t2"⟩, ⟨"t3"⟩⟩

/-- Sample ENI attachment. -/
def sampleAttachment : ENIAttachment := ⟨"arn:att", "ATTACHED", "eni details"⟩

/-- Sample task state change with one container sub-event and no
attachment. -/
def sampleTask : TaskStateChange :=
  { attachment := none, taskARN := "arn:1", status := ⟨"RUNNING"⟩, reason := "",
    containers := [⟨"cc1"⟩], managedAgents := [], pullStartedAt := none,
    pullStoppedAt := none, executionStoppedAt := none, metadataGetter := none }

/-- Sample attachment state change with a present attachment. -/
def sampleAttachmentChange : AttachmentStateChange := ⟨some sampleAttachment⟩

end Statechange

namespace Ecscni

/-- Minimum backoff of the network-namespace setup retry configuration,
in nanoseconds (time.Second). -/
def setupNSBackoffMin : Nat := 1000000000

/-- Maximum backoff of the network-namespace setup retry configuration,
in nanoseconds (time.Second * 3). -/
def setupNSBackoffMax : Nat := 3 * 1000000000

/-- Maximum retry count of the network-namespace setup retry
configuration. -/
def setupNSMaxRetryCount : Nat := 3

/-- Modelled from the spec: the network-namespace setup retry driver is
not among these sources (only its configuration constants are). Per the
spec, the setup operation is attempted with the configured budget of
tries and, once the budget is exhausted, the failure surfaces as a
terminal result instead of being retried indefinitely. The first
argument says whether the attempt with the given index succeeds; the
result is the index of the successful attempt, or none after the
budget runs out. -/
def setupNSLoop (succeeds : Nat → Bool) : Nat → Nat → Option Nat
  | 0, _ => none
  | Nat.succ fuel, i =>
    if succeeds i then some i else setupNSLoop succeeds fuel (i + 1)

/-- Modelled from the spec: run the setup operation under the
configured retry budget, starting at attempt index 0. -/
def setupNSRun (succeeds : Nat → Bool) : Option Nat :=
  setupNSLoop succeeds setupNSMaxRetryCount 0

end Ecscni

open Statechange Ecscni

/-- Clause decomposition of the ContainerStateChange rendering: the
output is the head clause followed by the four optional clauses in
their fixed order (absent clauses contribute the empty string). -/
theorem containerString_clauses (c : ContainerStateChange) :
    c.string = containerNameStatusClause c ++ containerExitCodeClause c
      ++ containerReasonClause c ++ containerBindingsClause c ++ containerMetaClause c := by
  obtain ⟨ta, rid, name, st, dig, rsn, ec, nbs, mg⟩ := c
  cases ec <;> cases mg <;>
    simp only [ContainerStateChange.string, containerNameStatusClause, containerExitCodeClause,
      containerReasonClause, containerBindingsClause, containerMetaClause,
      containerMetaClauseOf] <;>
    split_ifs <;>
    simp_all [String.append_assoc, String.append_empty]

/-- Folding the container sub-event loop from an accumulator equals the
accumulator followed by the concatenated clauses. -/
theorem foldl_containerChangeClauses (l : List EcsContainerStateChange) (init : String) :
    List.foldl (fun r cc => r ++ (", container change: " ++ cc.rep)) init l
      = init ++ containerChangeClauses l := by
  induction l generalizing init with
  | nil => simp [containerChangeClauses]
  | cons x xs ih => simp [containerChangeClauses, ih, String.append_assoc]

/-- Folding the managed-agent sub-event loop from an accumulator equals
the accumulator followed by the concatenated clauses. -/
theorem foldl_managedAgentClauses (l : List EcsManagedAgentStateChange) (init : String) :
    List.foldl (fun r mc => r ++ (", managed agent: " ++ mc.rep)) init l
      = init ++ managedAgentClauses l := by
  induction l generalizing init with
  | nil => simp [managedAgentClauses]
  | cons x xs ih => simp [managedAgentClauses, ih, String.append_assoc]

/-- Clause decomposition of the TaskStateChange rendering: head clause,
metadata clause, attachment clause, container sub-event clauses and
managed-agent sub-event clauses, in that fixed order. -/
theorem taskString_clauses (ch : TaskStateChange) :
    ch.string = taskHeadClause ch ++ taskMetaClause ch ++ taskAttachmentClause ch
      ++ containerChangeClauses ch.containers ++ managedAgentClauses ch.managedAgents := by
  obtain ⟨att, arn, st, rsn, conts, mas, p1, p2, p3, mg⟩ := ch
  cases att <;> cases mg <;>
    simp only [TaskStateChange.string, taskHeadClause, taskMetaClause, taskMetaClauseOf,
      taskAttachmentClause, foldl_containerChangeClauses, foldl_managedAgentClauses] <;>
    (try split_ifs) <;>
    simp_all [String.append_assoc, String.append_empty]

/-- Claim C1: for every ContainerStateChange value, the rendering
begins with the clause containerName=<name> containerStatus=<status>,
with name the ContainerName field and status the string form of the
Status field. The rendering is a total function of the event value, so
it completes for every value, in particular when the metadata getter
is absent or its nil-check reports a void container. -/
theorem c1_container_string_begins_with_head (c : ContainerStateChange) :
    ∃ t, c.string
      = ("containerName=" ++ c.containerName ++ " containerStatus=" ++ c.status.string) ++ t := by
  refine ⟨containerExitCodeClause c ++ (containerReasonClause c
    ++ (containerBindingsClause c ++ containerMetaClause c)), ?_⟩
  rw [containerString_clauses c]
  simp [containerNameStatusClause, String.append_assoc]

/-- Claim C2: the metadata clause of a ContainerStateChange or
TaskStateChange rendering is appended exactly when the getter is
present and its nil-check reports false; when the nil-check reports
true, the output coincides with the output for an absent getter, so no
accessor other than the nil-check can influence it, matching the code,
which dereferences the other accessors only behind that guard. -/
theorem c2_meta_clause_guarded (c : ContainerStateChange) (t : TaskStateChange) :
    (∀ g, c.metadataGetter = some g → g.getContainerIsNil = false →
      c.string = ({c with metadataGetter := none} : ContainerStateChange).string
        ++ containerMetaClauseOf g)
    ∧ (∀ g, c.metadataGetter = some g → g.getContainerIsNil = true →
      c.string = ({c with metadataGetter := none} : ContainerStateChange).string)
    ∧ (∀ g, t.metadataGetter = some g → g.getTaskIsNil = false →
      t.string = taskHeadClause t ++ taskMetaClauseOf g ++ taskAttachmentClause t
        ++ containerChangeClauses t.containers ++ managedAgentClauses t.managedAgents)
    ∧ (∀ g, t.metadataGetter = some g → g.getTaskIsNil = true →
      t.string = ({t with metadataGetter := none} : TaskStateChange).string) := by
  have hc0 : ({c with metadataGetter := none} : ContainerStateChange).string
      = containerNameStatusClause c ++ containerExitCodeClause c
        ++ containerReasonClause c ++ containerBindingsClause c := by
    rw [containerString_clauses]
    simp [containerNameStatusClause, containerExitCodeClause, containerReasonClause,
      containerBindingsClause, containerMetaClause]
  have ht0 : ({t with metadataGetter := none} : TaskStateChange).string
      = taskHeadClause t ++ taskAttachmentClause t
        ++ containerChangeClauses t.containers ++ managedAgentClauses t.managedAgents := by
    rw [taskString_clauses]
    simp [taskHeadClause, taskMetaClause, taskAttachmentClause]
  refine ⟨?_, ?_, ?_, ?_⟩
  · intro g hg hnil
    rw [containerString_clauses c, hc0]
    have hm : containerMetaClause c = containerMetaClauseOf g := by
      simp [containerMetaClause, hg, hnil]
    rw [hm]
  · intro g hg hnil
    rw [containerString_clauses c, hc0]
    have hm : containerMetaClause c = "" := by
      simp [containerMetaClause, hg, hnil]
    rw [hm, String.append_empty]
  · intro g hg hnil
    rw [taskString_clauses t]
    have hm : taskMetaClause t = taskMetaClauseOf g := by
      simp [taskMetaClause, hg, hnil]
    rw [hm]
  · intro g hg hnil
    rw [taskString_clauses t, ht0]
    have hm : taskMetaClause t = "" := by
      simp [taskMetaClause, hg, hnil]
    rw [hm, String.append_empty]

/-- Claim C3: the TaskStateChange rendering emits its clauses in the
fixed order head, metadata, attachment, container sub-events in
sequence order, managed-agent sub-events in sequence order; a nil
attachment and empty sub-event sequences contribute no clause. -/
theorem c3_task_clause_order (ch : TaskStateChange) :
    ch.string = taskHeadClause ch ++ taskMetaClause ch ++ taskAttachmentClause ch
      ++ containerChangeClauses ch.containers ++ managedAgentClauses ch.managedAgents
    ∧ (ch.attachment = none → taskAttachmentClause ch = "")
    ∧ (ch.containers = [] → containerChangeClauses ch.containers = "")
    ∧ (ch.managedAgents = [] → managedAgentClauses ch.managedAgents = "") := by
  refine ⟨taskString_clauses ch, ?_, ?_, ?_⟩ <;> intro h <;>
    simp [taskAttachmentClause, containerChangeClauses, managedAgentClauses, h]

/-- Claim C4: the AttachmentStateChange rendering is empty exactly when
the attachment reference is nil; for a present attachment it is the
ARN, the status string form and the attachment detail rendering, and
is non-empty. -/
theorem c4_attachment_string_empty_iff_nil (ch : AttachmentStateChange) :
    (ch.string = "" ↔ ch.attachment = none)
    ∧ ∀ a, ch.attachment = some a →
        ch.string = a.attachmentARN ++ " -> " ++ a.statusRep ++ ", " ++ a.rep
        ∧ ch.string ≠ "" := by
  obtain ⟨att⟩ := ch
  have h4 : (" -> " : String).length = 4 := by decide
  have h2 : (", " : String).length = 2 := by decide
  cases att with
  | none =>
    refine ⟨by simp [AttachmentStateChange.string], ?_⟩
    intro a ha
    exact absurd ha (by simp)
  | some a =>
    have hstr : (⟨some a⟩ : AttachmentStateChange).string
        = a.attachmentARN ++ " -> " ++ a.statusRep ++ ", " ++ a.rep := rfl
    have hne : (⟨some a⟩ : AttachmentStateChange).string ≠ "" := by
      rw [hstr]
      intro hemp
      have hL := congrArg String.length hemp
      simp only [String.length_append, h4, h2, String.length_empty] at hL
      omega
    refine ⟨⟨fun h => absurd h hne, fun h => by simp at h⟩, ?_⟩
    intro b hb
    have hab : a = b := by simpa using hb
    subst hab
    exact ⟨hstr, hne⟩

/-- Claim C5: the exit-code clause appears in the ContainerStateChange
rendering exactly when the ExitCode field is set, and the exit-code
clause does not depend on the Status field. -/
theorem c5_exit_code_clause_iff_set (c : ContainerStateChange) :
    (∀ ec, c.exitCode = some ec →
      c.string = containerNameStatusClause c ++ (" containerExitCode=" ++ toString ec)
        ++ containerReasonClause c ++ containerBindingsClause c ++ containerMetaClause c)
    ∧ (c.exitCode = none →
      c.string = containerNameStatusClause c ++ containerReasonClause c
        ++ containerBindingsClause c ++ containerMetaClause c)
    ∧ ∀ s, containerExitCodeClause ({c with status := s} : ContainerStateChange)
        = containerExitCodeClause c := by
  refine ⟨?_, ?_, fun s => rfl⟩
  · intro ec hec
    rw [containerString_clauses c]
    have h : containerExitCodeClause c = " containerExitCode=" ++ toString ec := by
      simp [containerExitCodeClause, hec]
    rw [h]
  · intro hec
    rw [containerString_clauses c]
    have h : containerExitCodeClause c = "" := by
      simp [containerExitCodeClause, hec]
    rw [h, String.append_empty]

/-- Claim C6: the network-bindings clause appears in the
ContainerStateChange rendering exactly when the bindings sequence is
non-empty, and the reason clause appears exactly when the Reason field
is a non-empty string. -/
theorem c6_bindings_and_reason_clauses (c : ContainerStateChange) :
    (c.networkBindings ≠ [] →
      c.string = containerNameStatusClause c ++ containerExitCodeClause c
        ++ containerReasonClause c
        ++ (" containerNetworkBindings=" ++ networkBindingsRepr c.networkBindings)
        ++ containerMetaClause c)
    ∧ (c.networkBindings = [] →
      c.string = containerNameStatusClause c ++ containerExitCodeClause c
        ++ containerReasonClause c ++ containerMetaClause c)
    ∧ (c.reason ≠ "" →
      c.string = containerNameStatusClause c ++ containerExitCodeClause c
        ++ (" containerReason=" ++ c.reason) ++ containerBindingsClause c
        ++ containerMetaClause c)
    ∧ (c.reason = "" →
      c.string = containerNameStatusClause c ++ containerExitCodeClause c
        ++ containerBindingsClause c ++ containerMetaClause c) := by
  refine ⟨?_, ?_, ?_, ?_⟩
  · intro h
    rw [containerString_clauses c]
    have hb : containerBindingsClause c
        = " containerNetworkBindings=" ++ networkBindingsRepr c.networkBindings := by
      simp [containerBindingsClause, List.length_eq_zero, h]
    rw [hb]
  · intro h
    rw [containerString_clauses c]
    have hb : containerBindingsClause c = "" := by
      simp [containerBindingsClause, h]
    rw [hb, String.append_empty]
  · intro h
    rw [containerString_clauses c]
    have hr : containerReasonClause c = " containerReason=" ++ c.reason := by
      simp [containerReasonClause, h]
    rw [hr]
  · intro h
    rw [containerString_clauses c]
    have hr : containerReasonClause c = "" := by
      simp [containerReasonClause, h]
    rw [hr, String.append_empty]

/-- Claim C7: each rendering is a deterministic function of the event
fields and of the values the metadata accessors return, so two calls
on the same unmutated event, with the accessors returning the same
values, give identical output; the rendering mutates nothing, being a
pure function in this embedding, exactly as the source only reads the
receiver. -/
theorem c7_render_pure_and_deterministic (c : ContainerStateChange)
    (g1 g2 : ContainerMetadataGetter) (t : TaskStateChange)
    (tg1 tg2 : TaskMetadataGetter) (a1 a2 : AttachmentStateChange) :
    (g1.getContainerIsNil = g2.getContainerIsNil →
      g1.getContainerSentStatusString = g2.getContainerSentStatusString →
      g1.getContainerRuntimeID = g2.getContainerRuntimeID →
      g1.getContainerIsEssential = g2.getContainerIsEssential →
      ({c with metadataGetter := some g1} : ContainerStateChange).string
        = ({c with metadataGetter := some g2} : ContainerStateChange).string)
    ∧ (tg1.getTaskIsNil = tg2.getTaskIsNil →
      tg1.getTaskSentStatusString = tg2.getTaskSentStatusString →
      tg1.getTaskPullStartedAt = tg2.getTaskPullStartedAt →
      tg1.getTaskPullStoppedAt = tg2.getTaskPullStoppedAt →
      tg1.getTaskExecutionStoppedAt = tg2.getTaskExecutionStoppedAt →
      ({t with metadataGetter := some tg1} : TaskStateChange).string
        = ({t with metadataGetter := some tg2} : TaskStateChange).string)
    ∧ (a1.attachment = a2.attachment → a1.string = a2.string) := by
  refine ⟨?_, ?_, ?_⟩
  · intro h1 h2 h3 h4
    have hg : g1 = g2 := by cases g1; cases g2; simp_all
    rw [hg]
  · intro h1 h2 h3 h4 h5
    have hg : tg1 = tg2 := by cases tg1; cases tg2; simp_all
    rw [hg]
  · intro h
    obtain ⟨att1⟩ := a1
    obtain ⟨att2⟩ := a2
    have h2 : att1 = att2 := h
    subst h2
    rfl

/-- Claim C8: golden scenarios. The container named web with status
RUNNING and nothing else set renders exactly as
containerName=web containerStatus=RUNNING; the container named web
with status STOPPED, exit code 1 and reason OOMKilled renders exactly
as containerName=web containerStatus=STOPPED containerExitCode=1
containerReason=OOMKilled. -/
theorem c8_golden_scenarios :
    sampleWebRunning.string = "containerName=web containerStatus=RUNNING"
    ∧ sampleWebStopped.string
      = "containerName=web containerStatus=STOPPED containerExitCode=1 containerReason=OOMKilled" := by
  constructor <;> decide

/-- Helper: a successful attempt index returned by the retry loop lies
below the starting index plus the fuel. -/
theorem setupNSLoop_some_lt (succeeds : Nat → Bool) :
    ∀ fuel i j, setupNSLoop succeeds fuel i = some j → j < i + fuel := by
  intro fuel
  induction fuel with
  | zero => intro i j h; simp [setupNSLoop] at h
  | succ n ih =>
    intro i j h
    simp only [setupNSLoop] at h
    split at h
    · cases h; omega
    · have := ih (i + 1) j h; omega

/-- Helper: when every attempt fails, the retry loop returns none for
any fuel and starting index. -/
theorem setupNSLoop_none (succeeds : Nat → Bool) (hf : ∀ i, succeeds i = false) :
    ∀ fuel i, setupNSLoop succeeds fuel i = none := by
  intro fuel
  induction fuel with
  | zero => intro i; rfl
  | succ n ih => intro i; simp only [setupNSLoop, hf i]; exact ih (i + 1)

/-- Claim C9: the network-namespace setup retry configuration bounds
retries by the finite constant 3, its minimum backoff of one second
does not exceed its maximum backoff of three seconds, and the
spec-modelled setup driver attempts a failing operation at most that
constant number of times before surfacing a terminal failure. -/
theorem c9_setup_retry_bounded :
    setupNSMaxRetryCount = 3 ∧ setupNSBackoffMin ≤ setupNSBackoffMax
    ∧ (∀ succeeds j, setupNSRun succeeds = some j → j < setupNSMaxRetryCount)
    ∧ (∀ succeeds, (∀ i, succeeds i = false) → setupNSRun succeeds = none) := by
  refine ⟨rfl, by decide, ?_, ?_⟩
  · intro succeeds j h
    have hlt := setupNSLoop_some_lt succeeds setupNSMaxRetryCount 0 j h
    simpa using hlt
  · intro succeeds hf
    exact setupNSLoop_none succeeds hf setupNSMaxRetryCount 0

/-- Claim C10: the TaskArn, RuntimeID and ImageDigest fields of a
ContainerStateChange are never rendered: changing them to any values
leaves the output unchanged, so they cannot influence the diagnostic
string. -/
theorem c10_carried_fields_not_rendered (c : ContainerStateChange) (ta r d : String) :
    ({c with taskArn := ta, runtimeID := r, imageDigest := d} : ContainerStateChange).string
      = c.string := rfl

/-- Witness for claim C2 at a concrete container event carrying a
getter whose nil-check reports false. -/
theorem c2_witness :
    ({sampleWebRunning with metadataGetter := some sampleGetter} : ContainerStateChange).string
      = ({({sampleWebRunning with metadataGetter := some sampleGetter} : ContainerStateChange)
            with metadataGetter := none} : ContainerStateChange).string
        ++ containerMetaClauseOf sampleGetter :=
  (c2_meta_clause_guarded
    ({sampleWebRunning with metadataGetter := some sampleGetter}) sampleTask).1
    sampleGetter rfl rfl

/-- Witness for claim C3 at a concrete task event with one container
sub-event and no attachment. -/
theorem c3_witness :
    sampleTask.string = taskHeadClause sampleTask ++ taskMetaClause sampleTask
      ++ taskAttachmentClause sampleTask ++ containerChangeClauses sampleTask.containers
      ++ managedAgentClauses sampleTask.managedAgents
    ∧ taskAttachmentClause sampleTask = "" :=
  ⟨(c3_task_clause_order sampleTask).1, (c3_task_clause_order sampleTask).2.1 rfl⟩

/-- Witness for claim C4 at a concrete attachment event with a present
attachment. -/
theorem c4_witness :
    sampleAttachmentChange.string
      = sampleAttachment.attachmentARN ++ " -> " ++ sampleAttachment.statusRep
        ++ ", " ++ sampleAttachment.rep
    ∧ sampleAttachmentChange.string ≠ "" :=
  (c4_attachment_string_empty_iff_nil sampleAttachmentChange).2 sampleAttachment rfl

/-- Witness for claim C5 at the concrete stopped container event with
exit code 1. -/
theorem c5_witness :
    sampleWebStopped.string
      = containerNameStatusClause sampleWebStopped
        ++ (" containerExitCode=" ++ toString (1 : Int))
        ++ containerReasonClause sampleWebStopped ++ containerBindingsClause sampleWebStopped
        ++ containerMetaClause sampleWebStopped :=
  (c5_exit_code_clause_iff_set sampleWebStopped).1 1 rfl

/-- Witness for claim C6 at the concrete stopped container event with
a non-empty reason. -/
theorem c6_witness :
    sampleWebStopped.string
      = containerNameStatusClause sampleWebStopped ++ containerExitCodeClause sampleWebStopped
        ++ (" containerReason=" ++ sampleWebStopped.reason)
        ++ containerBindingsClause sampleWebStopped ++ containerMetaClause sampleWebStopped :=
  (c6_bindings_and_reason_clauses sampleWebStopped).2.2.1 (by decide)

/-- Witness for claim C7 at concrete events and getters. -/
theorem c7_witness :
    ({sampleWebRunning with metadataGetter := some sampleGetter} : ContainerStateChange).string
      = ({sampleWebRunning with metadataGetter := some sampleGetter} : ContainerStateChange).string :=
  (c7_render_pure_and_deterministic sampleWebRunning sampleGetter sampleGetter sampleTask
    sampleTaskGetter sampleTaskGetter sampleAttachmentChange sampleAttachmentChange).1
    rfl rfl rfl rfl

/-- Witness for claim C9: an immediately succeeding operation uses an
attempt index below the budget, and an always failing operation ends
with a terminal failure. -/
theorem c9_witness :
    0 < setupNSMaxRetryCount ∧ setupNSRun (fun _ => false) = none :=
  ⟨c9_setup_retry_bounded.2.2.1 (fun _ => true) 0 rfl,
   c9_setup_retry_bounded.2.2.2 (fun _ => false) (fun _ => rfl)⟩
